import Mathlib

/-!
Verification development for the news summarization pipeline
(`lambda/news_processor/lambda_function.py`).

The Python module is embedded shallowly:
  * an `Article` mirrors the item dictionaries (optional fields model
    `dict.get` with its defaults; `content` uses `""` for a missing field,
    exactly the `get('content', '')` of the source);
  * the Bedrock backend, the random jitter, the random inter-batch delay,
    the store write result and the channel delivery results are oracles
    passed in explicitly (the source reads them from the network / RNG);
  * `time.sleep` calls and channel calls are recorded as events in a trace;
  * exceptions are modelled by outcome values: every `try/except` of the
    source catches and converts, so all embedded functions are total.
-/

/-- One news item record, mirroring the Python article dictionaries.
`title`, `source`, `link`, `summary` model `dict.get` with defaults
(`'No Title'`, `'Unknown Source'`, `'#'`, `'No summary available'`);
`content` models `get('content', '')` with `""` for a missing field. -/
structure Article where
  id : String
  title : Option String
  source : Option String
  link : Option String
  content : String
  summary : Option String
  processed : Bool
deriving DecidableEq

/-- Outcome of one `bedrock_runtime.invoke_model` call: a parsed summary,
a `ClientError` with its error code and message, or any other exception. -/
inductive BedrockOutcome where
  | success (summary : String)
  | clientError (code : String) (msg : String)
  | otherError (msg : String)
deriving DecidableEq

/-- The error codes retried by `summarize_article_with_bedrock`
(line 169 of the source). -/
def retryableCodes : List String :=
  [("ThrottlingException"), ("ServiceQuotaExceeded"), ("TooManyRequestsException")]

/-- Sentinel returned when the article has no content (line 91). -/
def noContentMsg : String := "No content available for summarization."

/-- Error string for a terminal (non-retried) failure (lines 185 and 189). -/
def genErrorMsg (m : String) : String := "Error generating summary: " ++ m

/-- Error string returned when the retry budget is exhausted (line 174);
it mentions the configured maximum retry count. -/
def retriesExhaustedMsg (k : Nat) (m : String) : String :=
  "Error generating summary after " ++ toString k ++ " retries: " ++ m

/-- The backoff delay of line 178: `delay = (2 ** retry_count) * base_delay + jitter`. -/
def backoff_delay (base : ℚ) (retryCount : Nat) (jitter : ℚ) : ℚ :=
  2 ^ retryCount * base + jitter

/-- Result of `summarize_article_with_bedrock`: the returned string, the
number of backend calls made, and the list of backoff delays slept. -/
structure SummarizeOutcome where
  text : String
  calls : Nat
  delays : List ℚ
deriving DecidableEq

/-- The `while retry_count <= MAX_RETRIES` loop of lines 81-189.
`backend n` is the outcome of the `n`-th backend call (0-indexed) and
`jitter r` the value `random.uniform(1, 5)` drawn before the `r`-th retry.
`remaining` is the fuel `MAX_RETRIES - retry_count`: in the source the loop
gives up when `retry_count + 1 > MAX_RETRIES`, which holds exactly when
`remaining = 0`, so the two formulations agree; `retryCount` is kept as an
explicit counter because the delay formula uses it.  The loop condition
itself never terminates the loop: on every path the body returns, or
re-enters with `retry_count <= MAX_RETRIES` re-established. -/
def summarizeGo (maxRetries : Nat) (backend : Nat → BedrockOutcome) (jitter : Nat → ℚ)
    (a : Article) : Nat → Nat → Nat → List ℚ → SummarizeOutcome
  | remaining, retryCount, calls, delays =>
    if a.content = "" then ⟨noContentMsg, calls, delays⟩
    else
      match backend calls, remaining with
      | .success s, _ => ⟨s, calls + 1, delays⟩
      | .otherError m, _ => ⟨genErrorMsg m, calls + 1, delays⟩
      | .clientError code m, 0 =>
        if retryableCodes.contains code then
          ⟨retriesExhaustedMsg maxRetries m, calls + 1, delays⟩
        else ⟨genErrorMsg m, calls + 1, delays⟩
      | .clientError code m, r + 1 =>
        if retryableCodes.contains code then
          summarizeGo maxRetries backend jitter a r (retryCount + 1) (calls + 1)
            (delays ++ [backoff_delay 1 (retryCount + 1) (jitter (retryCount + 1))])
        else ⟨genErrorMsg m, calls + 1, delays⟩

/-- `summarize_article_with_bedrock(article_data, language)` (lines 75-189).
The `language` argument only selects between the two prompt templates and
does not influence control flow, call counts or delays. -/
def summarize_article_with_bedrock (maxRetries : Nat) (backend : Nat → BedrockOutcome)
    (jitter : Nat → ℚ) (a : Article) (language : String) : SummarizeOutcome :=
  let _ := language
  summarizeGo maxRetries backend jitter a maxRetries 0 0 []

/-- The two storage backends plus a flag modelling a read-side exception
(`except` branches of lines 46-48 and 71-73 fire when `fetchFails`). -/
structure ItemStore where
  table : List Article
  objects : List (String × Article)
  fetchFails : Bool
deriving DecidableEq

/-- The DynamoDB scan filter of lines 34-42:
`processed = False AND source = 'AWS Announcements'`. -/
def dynamodb_scan_filter (a : Article) : Bool :=
  !a.processed && a.source == some ("AWS Announcements")

/-- `get_unprocessed_articles_from_dynamodb` (lines 30-48): a filtered scan;
any exception is caught and an empty list returned. -/
def get_unprocessed_articles_from_dynamodb (store : ItemStore) : List Article :=
  if store.fetchFails then []
  else store.table.filter dynamodb_scan_filter

/-- Character-level model of the S3 `Prefix=` listing parameter. -/
def strStarts (p s : String) : Bool := p.data.isPrefixOf s.data

/-- `get_unprocessed_articles_from_s3` (lines 50-73): list all objects under
`articles/AWS Announcements/`, parse each, keep those not yet processed;
any exception is caught and an empty list returned. -/
def get_unprocessed_articles_from_s3 (store : ItemStore) : List Article :=
  if store.fetchFails then []
  else
    ((store.objects.filter fun p => strStarts ("articles/AWS Announcements/") p.1).map
      Prod.snd).filter fun a => !a.processed

/-- The batch split of line 425-426: `unprocessed_articles[i:i+BATCH_SIZE]`
for `i in range(0, total_articles, BATCH_SIZE)`; the index `i` runs through
`k * b` for `k < ceil(n / b)`, the batch count printed on line 427. -/
def batches (l : List α) (b : Nat) : List (List α) :=
  (List.range ((l.length + b - 1) / b)).map fun k => (l.drop (k * b)).take b

/-- Configuration read from the environment at module load (lines 13-21),
plus the run date used in notification headers (`datetime.now()`). -/
structure Config where
  storageType : String
  slackWebhookUrl : Option String
  snsTopicArn : Option String
  outputLanguage : String
  maxRetries : Nat
  batchSize : Nat
  dateStr : String
deriving DecidableEq

/-- External nondeterminism of one run: per item index, the backend call
outcomes and jitters of its summarization; per item index, whether the
store write-back succeeds; per batch start index, the `random.uniform(5, 15)`
inter-batch delay; and the delivery outcomes of the two channels. -/
structure Oracles where
  backend : Nat → Nat → BedrockOutcome
  jitter : Nat → Nat → ℚ
  updateOk : Nat → Bool
  interDelay : Nat → ℚ
  slackDeliverOk : Bool
  snsDeliverOk : Bool

/-- One entry of the structured (`lambda`) form published via SNS
(lines 382-389): the `dict.get` defaults of the source are applied. -/
structure NotifEntry where
  title : String
  source : String
  summary : String
  link : String
deriving DecidableEq

def notifEntry (a : Article) : NotifEntry :=
  { title := a.title.getD ("No Title"), source := a.source.getD ("Unknown Source"),
    summary := a.summary.getD ("No summary available"), link := a.link.getD ("#") }

/-- A Slack Block Kit block as built on lines 254-311: a `header` block,
a `section` block with mrkdwn text, or a `divider`. -/
inductive SlackBlock where
  | header (text : String)
  | sectionBlock (mrkdwn : String)
  | divider
deriving DecidableEq

/-- Header text of lines 245 and 249. -/
def slack_header_text (lang date : String) : String :=
  if lang = "ja" then "AWS News Summary for " ++ date
  else "AWS News Summaries for " ++ date

/-- Intro text of lines 246 and 250. -/
def slack_intro_text (lang : String) : String :=
  if lang = "ja" then "Here are today\x27s AWS announcement summaries:"
  else "Here are your daily AWS announcement summaries:"

/-- Link text of lines 247 and 251 (identical in both languages). -/
def read_more_text (lang : String) : String :=
  if lang = "ja" then "Read Full Announcement" else "Read Full Announcement"

/-- The blocks appended for one article by the loop of lines 272-311:
a divider, a title+source section, a (possibly truncated) summary section,
and — only when `link and link != '#'` — a read-more link section. -/
def slackArticleBlocks (lang : String) (a : Article) : List SlackBlock :=
  let title := a.title.getD ("No Title")
  let source := a.source.getD ("Unknown Source")
  let summary0 := a.summary.getD ("No summary available")
  let link := a.link.getD ("#")
  let summary := if summary0.length > 2900 then summary0.take 2900 ++ "..." else summary0
  [SlackBlock.divider,
   SlackBlock.sectionBlock ("*" ++ title ++ "*\n_Source: " ++ source ++ "_"),
   SlackBlock.sectionBlock summary]
  ++ (if link ≠ "" ∧ link ≠ "#" then
        [SlackBlock.sectionBlock ("<" ++ link ++ "|" ++ read_more_text lang ++ ">")]
      else [])

/-- The full Slack message blocks of lines 254-311. -/
def slack_blocks (cfg : Config) (arts : List Article) : List SlackBlock :=
  SlackBlock.header (slack_header_text cfg.outputLanguage cfg.dateStr)
  :: SlackBlock.sectionBlock (slack_intro_text cfg.outputLanguage)
  :: (arts.map (slackArticleBlocks cfg.outputLanguage)).flatten

/-- The digest fragment appended for one article by lines 361-378: title,
source and summary lines, then a `More information` line when
`link and link != '#'`, else a bare blank line (the `ja`/`en` branches of
lines 373-376 emit the same text). -/
def snsArticleText (a : Article) : String :=
  let title := a.title.getD ("No Title")
  let source := a.source.getD ("Unknown Source")
  let summary := a.summary.getD ("No summary available")
  let link := a.link.getD ("#")
  title ++ "\n" ++ "Source: " ++ source ++ "\n" ++ summary ++ "\n"
  ++ (if link ≠ "" ∧ link ≠ "#" then "More information: " ++ link ++ "\n\n" else "\n")

/-- The plain-text digest of lines 353-378: a run-dated header line then
the per-article fragments. -/
def sns_message (cfg : Config) (arts : List Article) : String :=
  (if cfg.outputLanguage = "ja" then "AWS News Summary for " ++ cfg.dateStr ++ "\n\n"
   else "AWS News Summaries for " ++ cfg.dateStr ++ "\n\n")
  ++ String.join (arts.map snsArticleText)

/-- Observable effects of a run: per-article processing (the print of
line 433), the fixed `time.sleep(0.5)` of line 453, the inter-batch sleep
of line 459, and the two channel calls with their payloads.
Retry backoff sleeps live in `SummarizeOutcome.delays`, not here. -/
inductive Event where
  | processItem (idx : Nat)
  | intraPause
  | interPause (d : ℚ)
  | slackCall (blocks : List SlackBlock)
  | snsCall (digest : String) (structured : List NotifEntry)
deriving DecidableEq

/-- `send_sns_notification` (lines 345-407): not configured → report
`False` with no publish; otherwise publish once, carrying the text digest
and the structured JSON form together, and report the delivery outcome
(a raised publish error is caught and reported as `False`; the publish
call itself has still happened). -/
def send_sns_notification (cfg : Config) (deliverOk : Bool) (arts : List Article) :
    Bool × List Event :=
  match cfg.snsTopicArn with
  | none => (false, [])
  | some _ => (deliverOk, [Event.snsCall (sns_message cfg arts) (arts.map notifEntry)])

/-- `send_slack_notification` (lines 236-343): not configured → report
`False` with no call; otherwise attempt the webhook post once; on delivery
failure fall back to `send_sns_notification` when an SNS topic is
configured, else report `False`. -/
def send_slack_notification (cfg : Config) (orc : Oracles) (arts : List Article) :
    Bool × List Event :=
  match cfg.slackWebhookUrl with
  | none => (false, [])
  | some _ =>
    if orc.slackDeliverOk then (true, [Event.slackCall (slack_blocks cfg arts)])
    else
      match cfg.snsTopicArn with
      | some _ =>
        ((send_sns_notification cfg orc.snsDeliverOk arts).1,
         Event.slackCall (slack_blocks cfg arts)
           :: (send_sns_notification cfg orc.snsDeliverOk arts).2)
      | none => (false, [Event.slackCall (slack_blocks cfg arts)])

/-- The notification step of lines 461-470: skip when nothing was
processed; otherwise Slack first when configured (with its internal SNS
fallback), else SNS directly when configured, else nothing. -/
def dispatch_notifications (cfg : Config) (orc : Oracles) (payload : List Article) :
    List Event :=
  if payload.isEmpty then []
  else if cfg.slackWebhookUrl.isSome then (send_slack_notification cfg orc payload).2
  else if cfg.snsTopicArn.isSome then (send_sns_notification cfg orc.snsDeliverOk payload).2
  else []

/-- The summary string produced for the item at global index `idx`
(line 436: `summarize_article_with_bedrock(article, OUTPUT_LANGUAGE)`). -/
def itemSummary (cfg : Config) (orc : Oracles) (idx : Nat) (a : Article) : String :=
  (summarize_article_with_bedrock cfg.maxRetries (orc.backend idx) (orc.jitter idx)
    a cfg.outputLanguage).text

/-- The inner loop of lines 430-453 over one batch: summarize, write back
(`update_*` returns `False` on a caught exception, modelled by
`orc.updateOk idx`), append to the payload only on write success, and
sleep 0.5 after each item whenever the batch holds more than one item.
`batchLen` is `len(batch)`, constant across the loop. -/
def runBatchGo (cfg : Config) (orc : Oracles) (batchLen : Nat) :
    List Article → Nat → List Article × List Event
  | [], _ => ([], [])
  | a :: rest, idx =>
    let s := itemSummary cfg orc idx a
    let hd := if orc.updateOk idx then [{ a with summary := some s }] else []
    let pause := if batchLen > 1 then [Event.intraPause] else []
    let tail := runBatchGo cfg orc batchLen rest (idx + 1)
    (hd ++ tail.1, (Event.processItem idx :: pause) ++ tail.2)

/-- One batch of the outer loop, starting at global item index `i`. -/
def runBatch (cfg : Config) (orc : Oracles) (batch : List Article) (i : Nat) :
    List Article × List Event :=
  runBatchGo cfg orc batch.length batch i

/-- The outer loop of lines 425-459 (`for i in range(0, total, BATCH_SIZE)`),
expressed over the remaining backlog: each step takes the next `B`-slice
(`B` is `BATCH_SIZE`), then sleeps a random 5-15 units when `i + B < n`
(more backlog remains).  `fuel` is the number of loop iterations,
`ceil(n / B)`, fixed by the caller. -/
def process_loop (cfg : Config) (orc : Oracles) (B n : Nat) :
    Nat → List Article → Nat → List Article × List Event
  | 0, _, _ => ([], [])
  | fuel + 1, rem, i =>
    let this := runBatch cfg orc (rem.take B) i
    let inter :=
      if i + B < n then [Event.interPause (orc.interDelay i)] else []
    let next := process_loop cfg orc B n fuel (rem.drop B) (i + B)
    (this.1 ++ next.1, this.2 ++ inter ++ next.2)

/-- The backlog fetch of lines 413-417: S3 when `STORAGE_TYPE == 's3'`,
else DynamoDB. -/
def fetched_articles (cfg : Config) (store : ItemStore) : List Article :=
  if cfg.storageType = "s3" then get_unprocessed_articles_from_s3 store
  else get_unprocessed_articles_from_dynamodb store

/-- `process_articles` (lines 409-472): fetch, process in batches, then
dispatch notifications once over all successfully updated items.  Returns
`articles_with_summaries` and the event trace. -/
def process_articles (cfg : Config) (store : ItemStore) (orc : Oracles) :
    List Article × List Event :=
  let unprocessed := fetched_articles cfg store
  let n := unprocessed.length
  let run := process_loop cfg orc cfg.batchSize n
    ((n + cfg.batchSize - 1) / cfg.batchSize) unprocessed 0
  (run.1, run.2 ++ dispatch_notifications cfg orc run.1)

/-- A value of the result dictionary built on lines 490-500. -/
inductive RVal where
  | nat (n : Nat)
  | str (s : String)
  | arts (l : List (String × Option String × Option String))
deriving DecidableEq

/-- `lambda_handler` (lines 474-528) for a plain (non-API-Gateway)
invocation: the returned dictionary as an association list.  The embedded
`process_articles` is total, so the `except` branch returning
`{'error': ...}` is unreachable here; an API Gateway event would wrap this
same dictionary in a JSON body.  Each entry of `articles` carries
`(id, title, source)` as read on lines 493-499. -/
def lambda_handler (cfg : Config) (store : ItemStore) (orc : Oracles) :
    List (String × RVal) :=
  let processed := (process_articles cfg store orc).1
  [(("statusCode"), RVal.nat 200),
   (("articles_processed"), RVal.nat processed.length),
   (("articles"), RVal.arts (processed.map fun a => (a.id, a.title, a.source)))]

/-- Dictionary lookup on the handler result. -/
def lookupR (l : List (String × RVal)) (k : String) : Option RVal :=
  match l with
  | [] => none
  | p :: rest => if p.1 = k then some p.2 else lookupR rest k

/-- Observer: is this event the fixed 0.5-unit intra-batch sleep? -/
def isIntraPause : Event → Bool
  | Event.intraPause => true
  | _ => false

/-- Observer: is this event an inter-batch sleep? -/
def isInterPause : Event → Bool
  | Event.interPause _ => true
  | _ => false

def countIntra (evs : List Event) : Nat := evs.countP isIntraPause

def countInter (evs : List Event) : Nat := evs.countP isInterPause

/-- Global indices of the items whose processing was started, in order. -/
def processedIndices (evs : List Event) : List Nat :=
  evs.filterMap fun e => match e with | Event.processItem i => some i | _ => none

/-- The SNS publishes of a trace, each with its digest and structured form. -/
def snsCallsOf (evs : List Event) : List (String × List NotifEntry) :=
  evs.filterMap fun e => match e with | Event.snsCall d s => some (d, s) | _ => none

/-- Spec-side description of the per-item outcome: an indexed item enters
the notification payload, carrying its generated summary, exactly when its
write-back succeeded. -/
def withSummaryFor (cfg : Config) (orc : Oracles) (p : Nat × Article) : Option Article :=
  if orc.updateOk p.1 then some { p.2 with summary := some (itemSummary cfg orc p.1 p.2) }
  else none

/-- Spec-side description of the whole notification payload: exactly the
successfully written-back items of the fetched backlog, in order. -/
def specPayload (cfg : Config) (orc : Oracles) (l : List Article) : List Article :=
  l.enum.filterMap (withSummaryFor cfg orc)

/-- The object key written by `update_article_in_s3` (line 216) and by the
collector: `articles/{source}/{article_id}.json`. -/
def s3Key (src id : String) : String :=
  "articles/" ++ src ++ "/" ++ id ++ ".json"

/-- Store well-formedness for the S3 backend: every stored object sits at
the key its own `source` and `id` fields dictate (the invariant the write
paths of the repository maintain), and a source name contains no slash. -/
def s3KeyInvariant (store : ItemStore) : Prop :=
  ∀ p ∈ store.objects, ∃ src, p.2.source = some src ∧ ('/' ∉ src.data) ∧ p.1 = s3Key src p.2.id

/-- Spec-side view of the Slack blocks of one article with the link block
stripped: divider, title+source section, truncated summary section. -/
def slackArticleBase (lang : String) (a : Article) : List SlackBlock :=
  let _ := lang
  let title := a.title.getD ("No Title")
  let source := a.source.getD ("Unknown Source")
  let summary0 := a.summary.getD ("No summary available")
  let summary := if summary0.length > 2900 then summary0.take 2900 ++ "..." else summary0
  [SlackBlock.divider,
   SlackBlock.sectionBlock ("*" ++ title ++ "*\n_Source: " ++ source ++ "_"),
   SlackBlock.sectionBlock summary]

/-- Spec-side view of the SNS digest fragment of one article with its link
line stripped: title, source and summary lines. -/
def snsArticleBase (a : Article) : String :=
  a.title.getD ("No Title") ++ "\n" ++ "Source: " ++ a.source.getD ("Unknown Source") ++ "\n"
  ++ a.summary.getD ("No summary available") ++ "\n"

/-! Concrete inputs used by witnesses and counterexamples. -/

def cArticle1 : Article :=
  { id := "a1", title := some ("EC2 X1"), source := some ("AWS Announcements"),
    link := some ("https://aws.example/1"), content := "body 1", summary := none,
    processed := false }

def cArticle2 : Article := { cArticle1 with id := "a2", link := none }

def cArticle3 : Article := { cArticle1 with id := "a3", link := some ("#") }

def cCfgSlack : Config :=
  { storageType := "dynamodb", slackWebhookUrl := some ("https://hooks.example/x"),
    snsTopicArn := none, outputLanguage := "en", maxRetries := 8, batchSize := 2,
    dateStr := "2026-10-12" }

def cCfgBoth : Config := { cCfgSlack with snsTopicArn := some ("arn:aws:sns:t") }

def cCfgNone : Config := { cCfgSlack with slackWebhookUrl := none, snsTopicArn := none }

def cStore3 : ItemStore :=
  { table := [cArticle1, cArticle2, cArticle3], objects := [], fetchFails := false }

def cStoreFail : ItemStore := { table := [cArticle1], objects := [], fetchFails := true }

def cStoreS3 : ItemStore :=
  { table := [], objects := [(("articles/AWS Announcements/a1.json"), cArticle1)],
    fetchFails := false }

def cOrcOk : Oracles :=
  { backend := fun _ _ => BedrockOutcome.success ("All about EC2 X1."),
    jitter := fun _ _ => 2, updateOk := fun _ => true, interDelay := fun _ => 10,
    slackDeliverOk := true, snsDeliverOk := true }

def cOrcSlackFail : Oracles := { cOrcOk with slackDeliverOk := false }

/-- A run in which the write-back of the item at global index 1 fails. -/
def cOrcFail1 : Oracles := { cOrcOk with updateOk := fun i => !(i == 1) }

/-! Summarizer lemmas. -/

lemma summarizeGo_zero (k : Nat) (backend : Nat → BedrockOutcome) (jitter : Nat → ℚ)
    (a : Article) (rc c : Nat) (d : List ℚ) :
    summarizeGo k backend jitter a 0 rc c d =
      if a.content = "" then ⟨noContentMsg, c, d⟩
      else
        match backend c with
        | .success s => ⟨s, c + 1, d⟩
        | .otherError m => ⟨genErrorMsg m, c + 1, d⟩
        | .clientError code m =>
          if retryableCodes.contains code then ⟨retriesExhaustedMsg k m, c + 1, d⟩
          else ⟨genErrorMsg m, c + 1, d⟩ := by
  unfold summarizeGo
  by_cases h : a.content = ""
  · simp [h]
  · rw [if_neg h, if_neg h]
    cases hb : backend c <;> rfl

lemma summarizeGo_succ (k : Nat) (backend : Nat → BedrockOutcome) (jitter : Nat → ℚ)
    (a : Article) (r rc c : Nat) (d : List ℚ) :
    summarizeGo k backend jitter a (r + 1) rc c d =
      if a.content = "" then ⟨noContentMsg, c, d⟩
      else
        match backend c with
        | .success s => ⟨s, c + 1, d⟩
        | .otherError m => ⟨genErrorMsg m, c + 1, d⟩
        | .clientError code m =>
          if retryableCodes.contains code then
            summarizeGo k backend jitter a r (rc + 1) (c + 1)
              (d ++ [backoff_delay 1 (rc + 1) (jitter (rc + 1))])
          else ⟨genErrorMsg m, c + 1, d⟩ := by
  conv_lhs => unfold summarizeGo
  by_cases h : a.content = ""
  · simp [h]
  · rw [if_neg h, if_neg h]
    cases hb : backend c <;> rfl

lemma summarizeGo_calls_le (k : Nat) (backend : Nat → BedrockOutcome) (jitter : Nat → ℚ)
    (a : Article) :
    ∀ (r rc c : Nat) (d : List ℚ), (summarizeGo k backend jitter a r rc c d).calls ≤ c + r + 1 := by
  intro r
  induction r with
  | zero =>
    intro rc c d
    rw [summarizeGo_zero]
    by_cases h : a.content = ""
    · simp [h]
    · rw [if_neg h]
      cases hb : backend c with
      | success s => simp
      | clientError code m =>
        by_cases hcc : retryableCodes.contains code = true
        · simp only [hcc, if_true]
          simp
        · simp only [hcc, if_false]
          simp
      | otherError m => simp
  | succ r ih =>
    intro rc c d
    rw [summarizeGo_succ]
    by_cases h : a.content = ""
    · simp [h] <;> omega
    · rw [if_neg h]
      cases hb : backend c with
      | success s => simp <;> omega
      | clientError code m =>
        by_cases hcc : retryableCodes.contains code = true
        · simp only [hcc, if_true]
          exact le_trans (ih _ _ _) (by omega)
        · simp only [hcc, if_false]
          simp <;> omega
      | otherError m => simp <;> omega

lemma summarizeGo_throttle (k : Nat) (backend : Nat → BedrockOutcome) (jitter : Nat → ℚ)
    (code msg : Nat → String) (a : Article) (hc : a.content ≠ "")
    (hb : ∀ n, backend n = BedrockOutcome.clientError (code n) (msg n))
    (hr : ∀ n, retryableCodes.contains (code n) = true) :
    ∀ (r rc c : Nat) (d : List ℚ),
      (summarizeGo k backend jitter a r rc c d).calls = c + r + 1 ∧
      (summarizeGo k backend jitter a r rc c d).text = retriesExhaustedMsg k (msg (c + r)) := by
  intro r
  induction r with
  | zero =>
    intro rc c d
    rw [summarizeGo_zero, if_neg hc, hb c]
    simp only [hr c, if_true]
    simp
  | succ r ih =>
    intro rc c d
    rw [summarizeGo_succ, if_neg hc, hb c]
    simp only [hr c, if_true]
    have h := ih (rc + 1) (c + 1)
      (d ++ [backoff_delay 1 (rc + 1) (jitter (rc + 1))])
    have e1 : c + 1 + r + 1 = c + (r + 1) + 1 := by omega
    have e2 : c + 1 + r = c + (r + 1) := by omega
    exact ⟨by rw [h.1, e1], by rw [h.2, e2]⟩

/-- C4: for a non-empty-content item and a backend failing with a
rate-limit-class error on every call, the Summarizer with `max_retries = k`
makes exactly `k + 1` backend calls and returns the error string that
mentions `k` (the string embeds `toString k`); and for every backend it
makes at most `k + 1` calls (it is a total function, so it always
returns). -/
theorem C4_retry_exhaustion :
    (∀ (k : Nat) (backend : Nat → BedrockOutcome) (jitter : Nat → ℚ)
       (code msg : Nat → String) (a : Article) (language : String),
       a.content ≠ "" →
       (∀ n, backend n = BedrockOutcome.clientError (code n) (msg n)) →
       (∀ n, retryableCodes.contains (code n) = true) →
       (summarize_article_with_bedrock k backend jitter a language).calls = k + 1 ∧
       (summarize_article_with_bedrock k backend jitter a language).text
         = retriesExhaustedMsg k (msg k))
    ∧ ∀ (k : Nat) (backend : Nat → BedrockOutcome) (jitter : Nat → ℚ) (a : Article)
        (language : String),
        (summarize_article_with_bedrock k backend jitter a language).calls ≤ k + 1 := by
  constructor
  · intro k backend jitter code msg a language hc hb hr
    have h := summarizeGo_throttle k backend jitter code msg a hc hb hr k 0 0 []
    simpa [summarize_article_with_bedrock] using h
  · intro k backend jitter a language
    have h := summarizeGo_calls_le k backend jitter a k 0 0 []
    simpa [summarize_article_with_bedrock] using h

theorem C4_retry_exhaustion_witness :
    (summarize_article_with_bedrock 2
        (fun _ => BedrockOutcome.clientError ("ThrottlingException") ("boom"))
        (fun _ => 2) cArticle1 ("en")).calls = 2 + 1 ∧
    (summarize_article_with_bedrock 2
        (fun _ => BedrockOutcome.clientError ("ThrottlingException") ("boom"))
        (fun _ => 2) cArticle1 ("en")).text = retriesExhaustedMsg 2 ("boom") :=
  C4_retry_exhaustion.1 2
    (fun _ => BedrockOutcome.clientError ("ThrottlingException") ("boom")) (fun _ => 2)
    (fun _ => ("ThrottlingException")) (fun _ => ("boom"))
    cArticle1 ("en") (by decide) (fun _ => rfl) (fun _ => rfl)

/-- C6: with `base_delay = 1`, the backoff delay computed before retry
attempt `r` (1-indexed, so `retry_count = r` at that point) lies in
`[2^r, 2^r + 5)` for every jitter value in `[1, 5)`. -/
theorem C6_backoff_interval (r : Nat) (j : ℚ) (hr : 1 ≤ r) (h1 : 1 ≤ j) (h5 : j < 5) :
    (2 : ℚ) ^ r ≤ backoff_delay 1 r j ∧ backoff_delay 1 r j < 2 ^ r + 5 := by
  have _ := hr
  unfold backoff_delay
  rw [mul_one]
  constructor <;> linarith

theorem C6_backoff_interval_witness :
    (2 : ℚ) ^ 1 ≤ backoff_delay 1 1 2 ∧ backoff_delay 1 1 2 < 2 ^ 1 + 5 :=
  C6_backoff_interval 1 2 (by norm_num) (by norm_num) (by norm_num)

/-! Batch scheduler lemmas. -/

lemma pred_div_self (b : Nat) : (b - 1) / b = 0 := by
  cases b with
  | zero => simp
  | succ m => exact Nat.div_eq_of_lt (by omega)

lemma ceil_div_zero (b : Nat) : (0 + b - 1) / b = 0 := by
  rw [Nat.zero_add]
  exact pred_div_self b

lemma batches_nil (b : Nat) : batches ([] : List α) b = [] := by
  simp [batches, pred_div_self]

lemma ceil_div_succ (n b : Nat) (hb : 1 ≤ b) (hn : 1 ≤ n) :
    (n + b - 1) / b = (n - b + b - 1) / b + 1 := by
  rcases le_or_lt n b with h | h
  · have h1 : n - b = 0 := by omega
    rw [h1, ceil_div_zero]
    exact Nat.div_eq_of_lt_le (by omega) (by omega)
  · have h2 : n + b - 1 = (n - b + b - 1) + b := by omega
    rw [h2, Nat.add_div_right _ (by omega : 0 < b)]

lemma batches_cons (l : List α) (b : Nat) (hb : 1 ≤ b) (hl : l ≠ []) :
    batches l b = l.take b :: batches (l.drop b) b := by
  have hn : 1 ≤ l.length := List.length_pos.mpr hl
  simp only [batches, List.length_drop]
  rw [ceil_div_succ l.length b hb hn, List.range_succ_eq_map, List.map_cons, List.map_map]
  congr 1
  · simp
  · apply List.map_congr_left
    intro k _
    simp only [Function.comp_apply, List.drop_drop]
    congr 2
    rw [Nat.succ_mul, Nat.mul_comm k b]
    omega

theorem batches_flatten (b : Nat) (hb : 1 ≤ b) (l : List α) : (batches l b).flatten = l := by
  by_cases hl : l = []
  · subst hl; simp [batches_nil]
  · rw [batches_cons l b hb hl]
    simp only [List.flatten_cons]
    rw [batches_flatten b hb (l.drop b)]
    exact List.take_append_drop b l
termination_by l.length
decreasing_by
  simp only [List.length_drop]
  have := List.length_pos.mpr hl
  omega

lemma batches_getElem? (l : List α) (b k : Nat) (hk : k < (l.length + b - 1) / b) :
    (batches l b)[k]? = some ((l.drop (k * b)).take b) := by
  simp [batches, List.getElem?_map, List.getElem?_range hk]

/-- C5: for every backlog and every `batch_size` ≥ 1, the split of
line 425-426 yields `ceil(n / b)` batches whose concatenation is the
original backlog (so every item appears exactly once, in order, within and
across batches), each batch is non-empty of size at most `b`, and every
batch except possibly the last has size exactly `b`. -/
theorem C5_batch_partition (l : List Article) (b : Nat) (hb : 1 ≤ b) :
    (batches l b).length = (l.length + b - 1) / b
    ∧ (batches l b).flatten = l
    ∧ ∀ k c, (batches l b)[k]? = some c →
        c ≠ [] ∧ c.length ≤ b ∧ (k + 1 < (batches l b).length → c.length = b) := by
  refine ⟨by simp [batches], batches_flatten b hb l, ?_⟩
  intro k c hkc
  have hlen : (batches l b).length = (l.length + b - 1) / b := by simp [batches]
  have hk : k < (l.length + b - 1) / b := by
    rcases List.getElem?_eq_some_iff.mp hkc with ⟨h, _⟩
    omega
  rw [batches_getElem? l b k hk] at hkc
  have hc := Option.some.inj hkc
  subst hc
  have h2 : k * b + b ≤ l.length + b - 1 := by
    have h3 := (Nat.le_div_iff_mul_le (show 0 < b by omega)).mp
      (show k + 1 ≤ (l.length + b - 1) / b from hk)
    rw [Nat.succ_mul] at h3
    exact h3
  refine ⟨?_, ?_, ?_⟩
  · apply List.ne_nil_of_length_pos
    simp only [List.length_take, List.length_drop]
    omega
  · simp only [List.length_take, List.length_drop]
    omega
  · intro hk1
    rw [hlen] at hk1
    have h4 := (Nat.le_div_iff_mul_le (show 0 < b by omega)).mp
      (show k + 2 ≤ (l.length + b - 1) / b from hk1)
    have h5 : k * b + 2 * b ≤ l.length + b - 1 := by
      rw [Nat.add_mul] at h4
      exact h4
    simp only [List.length_take, List.length_drop]
    omega

theorem C5_batch_partition_witness :
    (batches [cArticle1, cArticle2, cArticle3] 2).length
      = (([cArticle1, cArticle2, cArticle3] : List Article).length + 2 - 1) / 2
    ∧ (batches [cArticle1, cArticle2, cArticle3] 2).flatten = [cArticle1, cArticle2, cArticle3]
    ∧ ∀ k c, (batches [cArticle1, cArticle2, cArticle3] 2)[k]? = some c →
        c ≠ [] ∧ c.length ≤ 2 ∧
          (k + 1 < (batches [cArticle1, cArticle2, cArticle3] 2).length → c.length = 2) :=
  C5_batch_partition [cArticle1, cArticle2, cArticle3] 2 (by decide)

/-! Pipeline trace lemmas. -/

lemma countIntra_append (l1 l2 : List Event) :
    countIntra (l1 ++ l2) = countIntra l1 + countIntra l2 :=
  List.countP_append _ _ _

lemma countInter_append (l1 l2 : List Event) :
    countInter (l1 ++ l2) = countInter l1 + countInter l2 :=
  List.countP_append _ _ _

lemma processedIndices_append (l1 l2 : List Event) :
    processedIndices (l1 ++ l2) = processedIndices l1 ++ processedIndices l2 :=
  List.filterMap_append _ _ _

lemma runBatchGo_payload (cfg : Config) (orc : Oracles) (L : Nat) :
    ∀ (items : List Article) (idx : Nat),
      (runBatchGo cfg orc L items idx).1
        = (items.enumFrom idx).filterMap (withSummaryFor cfg orc) := by
  intro items
  induction items with
  | nil => intro idx; simp [runBatchGo]
  | cons a rest ih =>
    intro idx
    simp only [runBatchGo, List.enumFrom_cons, List.filterMap_cons]
    by_cases h : orc.updateOk idx = true
    · simp [withSummaryFor, h, ih, itemSummary]
    · simp [withSummaryFor, h, ih]

lemma runBatchGo_indices (cfg : Config) (orc : Oracles) (L : Nat) :
    ∀ (items : List Article) (idx : Nat),
      processedIndices (runBatchGo cfg orc L items idx).2 = List.range' idx items.length := by
  intro items
  induction items with
  | nil => intro idx; simp [runBatchGo, processedIndices]
  | cons a rest ih =>
    intro idx
    simp only [runBatchGo]
    by_cases hL : L > 1
    · simp [processedIndices, hL, List.range'_succ] at ih ⊢ <;>
        exact ih (idx + 1)
    · simp [processedIndices, hL, List.range'_succ] at ih ⊢ <;>
        exact ih (idx + 1)

lemma runBatchGo_countIntra (cfg : Config) (orc : Oracles) (L : Nat) :
    ∀ (items : List Article) (idx : Nat),
      countIntra (runBatchGo cfg orc L items idx).2 = if 1 < L then items.length else 0 := by
  intro items
  induction items with
  | nil => intro idx; simp [runBatchGo, countIntra]
  | cons a rest ih =>
    intro idx
    simp only [runBatchGo]
    by_cases hL : 1 < L
    · simp [countIntra, hL, isIntraPause, List.countP_cons] at ih ⊢ <;>
        (rw [ih (idx + 1)] <;> omega)
    · simp [countIntra, hL, isIntraPause, List.countP_cons] at ih ⊢ <;>
        exact ih (idx + 1)

lemma runBatchGo_countInter (cfg : Config) (orc : Oracles) (L : Nat) :
    ∀ (items : List Article) (idx : Nat),
      countInter (runBatchGo cfg orc L items idx).2 = 0 := by
  intro items
  induction items with
  | nil => intro idx; simp [runBatchGo, countInter]
  | cons a rest ih =>
    intro idx
    simp only [runBatchGo]
    by_cases hL : 1 < L
    · simp [countInter, hL, isInterPause, List.countP_cons] at ih ⊢ <;>
        exact ih (idx + 1)
    · simp [countInter, hL, isInterPause, List.countP_cons] at ih ⊢ <;>
        exact ih (idx + 1)

lemma send_sns_trace (cfg : Config) (ok : Bool) (arts : List Article) :
    countIntra (send_sns_notification cfg ok arts).2 = 0
    ∧ countInter (send_sns_notification cfg ok arts).2 = 0
    ∧ processedIndices (send_sns_notification cfg ok arts).2 = [] := by
  unfold send_sns_notification
  cases cfg.snsTopicArn <;>
    simp [countIntra, countInter, processedIndices, isIntraPause, isInterPause]

lemma send_slack_trace (cfg : Config) (orc : Oracles) (arts : List Article) :
    countIntra (send_slack_notification cfg orc arts).2 = 0
    ∧ countInter (send_slack_notification cfg orc arts).2 = 0
    ∧ processedIndices (send_slack_notification cfg orc arts).2 = [] := by
  have hs := send_sns_trace cfg orc.snsDeliverOk arts
  unfold send_slack_notification
  cases cfg.slackWebhookUrl with
  | none => simp [countIntra, countInter, processedIndices]
  | some u =>
    by_cases hd : orc.slackDeliverOk = true
    · simp [hd, countIntra, countInter, processedIndices, isIntraPause, isInterPause]
    · cases ht : cfg.snsTopicArn with
      | none =>
        simp [hd, ht, countIntra, countInter, processedIndices, isIntraPause, isInterPause]
      | some t =>
        simp [hd, ht, countIntra, countInter, processedIndices, isIntraPause, isInterPause,
          List.countP_cons] at hs ⊢
        exact hs

lemma dispatch_trace (cfg : Config) (orc : Oracles) (p : List Article) :
    countIntra (dispatch_notifications cfg orc p) = 0
    ∧ countInter (dispatch_notifications cfg orc p) = 0
    ∧ processedIndices (dispatch_notifications cfg orc p) = [] := by
  unfold dispatch_notifications
  by_cases h0 : p.isEmpty
  · simp [h0, countIntra, countInter, processedIndices]
  · by_cases h1 : cfg.slackWebhookUrl.isSome
    · simp [h0, h1]
      exact send_slack_trace cfg orc p
    · by_cases h2 : cfg.snsTopicArn.isSome
      · simp [h0, h1, h2]
        exact send_sns_trace cfg orc.snsDeliverOk p
      · simp [h0, h1, h2, countIntra, countInter, processedIndices]

lemma process_loop_payload (cfg : Config) (orc : Oracles) (B n : Nat) :
    ∀ (fuel : Nat) (rem : List Article) (i : Nat), rem.length ≤ fuel * B →
      (process_loop cfg orc B n fuel rem i).1
        = (rem.enumFrom i).filterMap (withSummaryFor cfg orc) := by
  intro fuel
  induction fuel with
  | zero =>
    intro rem i h
    have h0 : rem.length = 0 := by omega
    have hr : rem = [] := List.length_eq_zero.mp h0
    subst hr
    simp [process_loop]
  | succ fuel ih =>
    intro rem i h
    simp only [process_loop]
    rw [runBatch, runBatchGo_payload]
    rcases le_or_lt rem.length B with hle | hlt
    · have ht : rem.take B = rem := List.take_of_length_le hle
      have hd : rem.drop B = [] := by
        have : (rem.drop B).length = 0 := by
          rw [List.length_drop]; omega
        exact List.length_eq_zero.mp this
      rw [ht, hd, ih [] (i + B) (by simp)]
      simp
    · have hlen : (rem.take B).length = B := by rw [List.length_take]; omega
      have h' : (rem.drop B).length ≤ fuel * B := by
        rw [List.length_drop]
        rw [Nat.succ_mul] at h
        omega
      rw [ih (rem.drop B) (i + B) h']
      conv_rhs => rw [← List.take_append_drop B rem]
      rw [List.enumFrom_append, List.filterMap_append, hlen]

lemma process_loop_indices (cfg : Config) (orc : Oracles) (B n : Nat) :
    ∀ (fuel : Nat) (rem : List Article) (i : Nat), rem.length ≤ fuel * B →
      processedIndices (process_loop cfg orc B n fuel rem i).2 = List.range' i rem.length := by
  intro fuel
  induction fuel with
  | zero =>
    intro rem i h
    have h0 : rem.length = 0 := by omega
    have hr : rem = [] := List.length_eq_zero.mp h0
    subst hr
    simp [process_loop, processedIndices]
  | succ fuel ih =>
    intro rem i h
    simp only [process_loop]
    rw [processedIndices_append, processedIndices_append]
    rw [runBatch, runBatchGo_indices]
    have hinter : processedIndices
        (if i + B < n then [Event.interPause (orc.interDelay i)] else []) = [] := by
      by_cases hc : i + B < n <;> simp [hc, processedIndices]
    rw [hinter]
    rcases le_or_lt rem.length B with hle | hlt
    · have ht : rem.take B = rem := List.take_of_length_le hle
      have hd : rem.drop B = [] := by
        have : (rem.drop B).length = 0 := by
          rw [List.length_drop]; omega
        exact List.length_eq_zero.mp this
      rw [ht, hd, ih [] (i + B) (by simp)]
      simp
    · have hlen : (rem.take B).length = B := by rw [List.length_take]; omega
      have h' : (rem.drop B).length ≤ fuel * B := by
        rw [List.length_drop]
        rw [Nat.succ_mul] at h
        omega
      rw [ih (rem.drop B) (i + B) h', hlen, List.length_drop]
      have hr := List.range'_append i B (rem.length - B) 1
      simp only [Nat.one_mul, List.append_nil] at hr
      rw [List.append_assoc, List.nil_append] at *
      rw [hr]
      congr 1
      omega

lemma ceil_mul_ge (n b : Nat) (hb : 1 ≤ b) : n ≤ ((n + b - 1) / b) * b := by
  have h1 := Nat.div_add_mod (n + b - 1) b
  have h2 := Nat.mod_lt (n + b - 1) (show 0 < b by omega)
  rw [Nat.mul_comm]
  omega

lemma process_articles_payload (cfg : Config) (store : ItemStore) (orc : Oracles)
    (hb : 1 ≤ cfg.batchSize) :
    (process_articles cfg store orc).1 = specPayload cfg orc (fetched_articles cfg store) := by
  simp only [process_articles]
  rw [process_loop_payload cfg orc cfg.batchSize (fetched_articles cfg store).length
    (((fetched_articles cfg store).length + cfg.batchSize - 1) / cfg.batchSize)
    (fetched_articles cfg store) 0
    (ceil_mul_ge (fetched_articles cfg store).length cfg.batchSize hb)]
  rw [specPayload, List.enum]

lemma process_articles_indices (cfg : Config) (store : ItemStore) (orc : Oracles)
    (hb : 1 ≤ cfg.batchSize) :
    processedIndices (process_articles cfg store orc).2
      = List.range (fetched_articles cfg store).length := by
  simp only [process_articles]
  rw [processedIndices_append]
  rw [(dispatch_trace cfg orc _).2.2, List.append_nil]
  rw [process_loop_indices cfg orc cfg.batchSize (fetched_articles cfg store).length
    (((fetched_articles cfg store).length + cfg.batchSize - 1) / cfg.batchSize)
    (fetched_articles cfg store) 0
    (ceil_mul_ge (fetched_articles cfg store).length cfg.batchSize hb)]
  rw [List.range_eq_range']

lemma specPayload_length_all (cfg : Config) (orc : Oracles) (l : List Article)
    (hupd : ∀ i, orc.updateOk i = true) :
    (specPayload cfg orc l).length = l.length := by
  rw [specPayload]
  have hlen : ∀ L : List (Nat × Article),
      (L.filterMap (withSummaryFor cfg orc)).length = L.length := by
    intro L
    induction L with
    | nil => simp
    | cons p rest ih => simp [withSummaryFor, hupd p.1, ih]
  rw [hlen, List.enum_length]

/-- C8: in every run, the notification payload is exactly the fetched
items whose write-back succeeded, in order, each carrying the summary
generated for it; and every fetched item is processed (indices `0..n-1`
all appear in the trace), so a write-back failure does not abort the
run. -/
theorem C8_writeback_exclusion (cfg : Config) (store : ItemStore) (orc : Oracles)
    (hb : 1 ≤ cfg.batchSize) :
    (process_articles cfg store orc).1 = specPayload cfg orc (fetched_articles cfg store)
    ∧ processedIndices (process_articles cfg store orc).2
        = List.range (fetched_articles cfg store).length :=
  ⟨process_articles_payload cfg store orc hb, process_articles_indices cfg store orc hb⟩

theorem C8_writeback_exclusion_witness :
    (process_articles cCfgSlack cStore3 cOrcFail1).1
        = specPayload cCfgSlack cOrcFail1 (fetched_articles cCfgSlack cStore3)
    ∧ processedIndices (process_articles cCfgSlack cStore3 cOrcFail1).2
        = List.range (fetched_articles cCfgSlack cStore3).length :=
  C8_writeback_exclusion cCfgSlack cStore3 cOrcFail1 (by decide)

/-- C1 counterexample: in a concrete 3-item run where generation and every
store write succeed, the handler result has no `items_fetched` entry at
all (the claimed `items_fetched = 3` is false), while `articles_processed`
is 3. -/
theorem C1_no_items_fetched_cex :
    lookupR (lambda_handler cCfgSlack cStore3 cOrcOk) ("items_fetched") = none
    ∧ lookupR (lambda_handler cCfgSlack cStore3 cOrcOk) ("articles_processed")
        = some (RVal.nat 3) := by
  constructor <;> decide

/-- C1 amended: the handler returns a dictionary with exactly
`statusCode = 200`, `articles_processed` = the number of successfully
updated items, and `articles` = their `(id, title, source)` triples; it
contains no `items_fetched` entry.  In a run over a backlog of 3 items
where every write-back succeeds, `articles_processed = 3` and the
`articles` list has 3 entries. -/
theorem C1_handler_result_amended :
    (∀ (cfg : Config) (store : ItemStore) (orc : Oracles),
       lambda_handler cfg store orc =
         [(("statusCode"), RVal.nat 200),
          (("articles_processed"), RVal.nat (process_articles cfg store orc).1.length),
          (("articles"),
            RVal.arts ((process_articles cfg store orc).1.map fun a => (a.id, a.title, a.source)))]
       ∧ lookupR (lambda_handler cfg store orc) ("items_fetched") = none)
    ∧ ∀ (cfg : Config) (store : ItemStore) (orc : Oracles), 1 ≤ cfg.batchSize →
        (∀ i, orc.updateOk i = true) →
        (fetched_articles cfg store).length = 3 →
        lookupR (lambda_handler cfg store orc) ("articles_processed") = some (RVal.nat 3)
        ∧ ∃ refs, lookupR (lambda_handler cfg store orc) ("articles") = some (RVal.arts refs)
            ∧ refs.length = 3 := by
  constructor
  · intro cfg store orc
    refine ⟨rfl, ?_⟩
    simp [lambda_handler, lookupR]
  · intro cfg store orc hb hupd h3
    have hplen : (process_articles cfg store orc).1.length = 3 := by
      rw [process_articles_payload cfg store orc hb,
        specPayload_length_all cfg orc _ hupd, h3]
    refine ⟨?_, ?_⟩
    · simp [lambda_handler, lookupR, hplen]
    · refine ⟨(process_articles cfg store orc).1.map fun a => (a.id, a.title, a.source), ?_, ?_⟩
      · simp [lambda_handler, lookupR]
      · simp [hplen]

theorem C1_handler_result_amended_witness :
    lookupR (lambda_handler cCfgSlack cStore3 cOrcOk) ("articles_processed")
        = some (RVal.nat 3)
    ∧ ∃ refs, lookupR (lambda_handler cCfgSlack cStore3 cOrcOk) ("articles")
        = some (RVal.arts refs) ∧ refs.length = 3 :=
  C1_handler_result_amended.2 cCfgSlack cStore3 cOrcOk (by decide) (fun _ => rfl) (by decide)

/-- C2 counterexample: at a concrete input whose store read fails (on a
non-empty table), the run does not abort: the handler returns a success
dictionary with `statusCode = 200` and `articles_processed = 0`, and no
`error` entry — exactly the zero-processed success result the claim says
is never returned. -/
theorem C2_fetch_failure_cex :
    lookupR (lambda_handler cCfgSlack cStoreFail cOrcOk) ("error") = none
    ∧ lookupR (lambda_handler cCfgSlack cStoreFail cOrcOk) ("statusCode")
        = some (RVal.nat 200)
    ∧ lookupR (lambda_handler cCfgSlack cStoreFail cOrcOk) ("articles_processed")
        = some (RVal.nat 0) := by
  refine ⟨?_, ?_, ?_⟩ <;> decide

/-- C2 amended: a backlog-fetch failure is caught inside the fetch
function, which returns an empty backlog; the run then completes as a
normal success with zero items processed and an empty list — it is not
reported as an overall failure. -/
theorem C2_fetch_failure_amended (cfg : Config) (store : ItemStore) (orc : Oracles)
    (hf : store.fetchFails = true) :
    lambda_handler cfg store orc =
      [(("statusCode"), RVal.nat 200),
       (("articles_processed"), RVal.nat 0),
       (("articles"), RVal.arts [])] := by
  have hfe : fetched_articles cfg store = [] := by
    unfold fetched_articles get_unprocessed_articles_from_s3
      get_unprocessed_articles_from_dynamodb
    split <;> simp [hf]
  have h0 : process_articles cfg store orc = ([], []) := by
    unfold process_articles
    rw [hfe]
    simp [pred_div_self, process_loop, dispatch_notifications]
  simp [lambda_handler, h0]

theorem C2_fetch_failure_amended_witness :
    lambda_handler cCfgSlack cStoreFail cOrcOk =
      [(("statusCode"), RVal.nat 200),
       (("articles_processed"), RVal.nat 0),
       (("articles"), RVal.arts [])] :=
  C2_fetch_failure_amended cCfgSlack cStoreFail cOrcOk rfl

/-- C3 counterexample: in the concrete 3-item, `batch_size = 2` run, the
trace contains two intra-batch pauses (one after each item of the first
batch, including its last item), not the claimed exactly one; the
inter-batch pause count is 1 as claimed. -/
theorem C3_pacing_cex :
    countIntra (process_articles cCfgSlack cStore3 cOrcOk).2 ≠ 1
    ∧ countIntra (process_articles cCfgSlack cStore3 cOrcOk).2 = 2
    ∧ countInter (process_articles cCfgSlack cStore3 cOrcOk).2 = 1 := by
  refine ⟨?_, ?_, ?_⟩ <;> decide

/-- C3 amended: within a batch, the fixed 0.5 pause is inserted after
every item whenever the batch holds more than one item (including after
the batch's last item), and never for a single-item batch; consequently a
run over 3 fetched items with `batch_size = 2` observes exactly two
intra-batch pacing delays (both within the first batch) and exactly one
inter-batch pacing delay. -/
theorem C3_pacing_amended :
    (∀ (cfg : Config) (orc : Oracles) (batch : List Article) (i : Nat),
       countIntra (runBatch cfg orc batch i).2
         = (if 1 < batch.length then batch.length else 0)
       ∧ countInter (runBatch cfg orc batch i).2 = 0)
    ∧ ∀ (cfg : Config) (store : ItemStore) (orc : Oracles) (a1 a2 a3 : Article),
        cfg.batchSize = 2 → fetched_articles cfg store = [a1, a2, a3] →
        countIntra (process_articles cfg store orc).2 = 2
        ∧ countInter (process_articles cfg store orc).2 = 1 := by
  constructor
  · intro cfg orc batch i
    rw [runBatch]
    exact ⟨runBatchGo_countIntra cfg orc batch.length batch i,
      runBatchGo_countInter cfg orc batch.length batch i⟩
  · intro cfg store orc a1 a2 a3 hB hf
    have h3 : ([a1, a2, a3] : List Article).length = 3 := rfl
    have hfuel : ((3 : Nat) + 2 - 1) / 2 = 2 := by norm_num
    have e2 : (process_loop cfg orc 2 3 2 [a1, a2, a3] 0).2
        = [Event.processItem 0, Event.intraPause, Event.processItem 1, Event.intraPause,
           Event.interPause (orc.interDelay 0), Event.processItem 2] := rfl
    have key : (process_articles cfg store orc).2
        = (process_loop cfg orc 2 3 2 [a1, a2, a3] 0).2
          ++ dispatch_notifications cfg orc (process_loop cfg orc 2 3 2 [a1, a2, a3] 0).1 := by
      simp only [process_articles]
      rw [hf, hB, h3, hfuel]
    rw [key, countIntra_append, countInter_append, e2,
      (dispatch_trace cfg orc _).1, (dispatch_trace cfg orc _).2.1]
    constructor <;> rfl

theorem C3_pacing_amended_witness :
    countIntra (process_articles cCfgSlack cStore3 cOrcOk).2 = 2
    ∧ countInter (process_articles cCfgSlack cStore3 cOrcOk).2 = 1 :=
  C3_pacing_amended.2 cCfgSlack cStore3 cOrcOk cArticle1 cArticle2 cArticle3 rfl (by decide)

/-- C7: with a non-empty payload, the primary (Slack) channel configured
and failing, and the secondary (SNS) channel configured and succeeding,
the dispatch reports overall success and the secondary channel is called
exactly once, carrying the plain-text digest and the structured form of
the same entries in that one publish; and with neither channel configured,
dispatch makes no channel call at all and each channel function reports
`false` ("not configured") without raising. -/
theorem C7_notification_fallback :
    (∀ (cfg : Config) (orc : Oracles) (arts : List Article) (u t : String),
       arts ≠ [] → cfg.slackWebhookUrl = some u → cfg.snsTopicArn = some t →
       orc.slackDeliverOk = false → orc.snsDeliverOk = true →
       (send_slack_notification cfg orc arts).1 = true
       ∧ snsCallsOf (send_slack_notification cfg orc arts).2
           = [(sns_message cfg arts, arts.map notifEntry)]
       ∧ dispatch_notifications cfg orc arts = (send_slack_notification cfg orc arts).2)
    ∧ ∀ (cfg : Config) (orc : Oracles) (payload : List Article),
        cfg.slackWebhookUrl = none → cfg.snsTopicArn = none →
        dispatch_notifications cfg orc payload = []
        ∧ send_slack_notification cfg orc payload = (false, [])
        ∧ send_sns_notification cfg orc.snsDeliverOk payload = (false, []) := by
  constructor
  · intro cfg orc arts u t hne hu ht hsf hst
    refine ⟨?_, ?_, ?_⟩
    · simp [send_slack_notification, send_sns_notification, hu, ht, hsf, hst]
    · simp [send_slack_notification, send_sns_notification, hu, ht, hsf, hst, snsCallsOf]
    · cases arts with
      | nil => exact absurd rfl hne
      | cons a rest => simp [dispatch_notifications, hu]
  · intro cfg orc payload hu ht
    refine ⟨?_, ?_, ?_⟩
    · unfold dispatch_notifications
      by_cases h0 : payload.isEmpty <;> simp [h0, hu, ht]
    · simp [send_slack_notification, hu]
    · simp [send_sns_notification, ht]

theorem C7_notification_fallback_witness :
    ((send_slack_notification cCfgBoth cOrcSlackFail [cArticle1]).1 = true
     ∧ snsCallsOf (send_slack_notification cCfgBoth cOrcSlackFail [cArticle1]).2
         = [(sns_message cCfgBoth [cArticle1], [cArticle1].map notifEntry)]
     ∧ dispatch_notifications cCfgBoth cOrcSlackFail [cArticle1]
         = (send_slack_notification cCfgBoth cOrcSlackFail [cArticle1]).2)
    ∧ (dispatch_notifications cCfgNone cOrcOk [cArticle1] = []
       ∧ send_slack_notification cCfgNone cOrcOk [cArticle1] = (false, [])
       ∧ send_sns_notification cCfgNone cOrcOk.snsDeliverOk [cArticle1] = (false, [])) :=
  ⟨C7_notification_fallback.1 cCfgBoth cOrcSlackFail [cArticle1]
      ("https://hooks.example/x") ("arn:aws:sns:t") (by decide) rfl rfl rfl rfl,
   C7_notification_fallback.2 cCfgNone cOrcOk [cArticle1] rfl rfl⟩

/-- C9: the link placeholder is exactly the one-character string `#`,
which is also the `dict.get` default when an item has no link field.  In
the Slack blocks a read-more link section is appended exactly when the
effective link is non-empty and not `#`; in the SNS digest a
`More information` line is appended under exactly the same condition,
with a bare blank line otherwise. -/
theorem C9_link_placeholder (lang : String) (a : Article) :
    (a.link = none → a.link.getD ("#") = "#")
    ∧ ((a.link.getD ("#") = "#" ∨ a.link.getD ("#") = "") →
        slackArticleBlocks lang a = slackArticleBase lang a
        ∧ snsArticleText a = snsArticleBase a ++ "\n")
    ∧ (a.link.getD ("#") ≠ "#" → a.link.getD ("#") ≠ "" →
        slackArticleBlocks lang a
          = slackArticleBase lang a
            ++ [SlackBlock.sectionBlock
                  ("<" ++ a.link.getD ("#") ++ "|" ++ read_more_text lang ++ ">")]
        ∧ snsArticleText a
          = snsArticleBase a ++ ("More information: " ++ a.link.getD ("#") ++ "\n\n")) := by
  refine ⟨fun h => by simp [h], ?_, ?_⟩
  · intro h
    rcases h with h | h <;>
      constructor <;>
        simp [slackArticleBlocks, slackArticleBase, snsArticleText, snsArticleBase, h]
  · intro h1 h2
    constructor <;>
      simp [slackArticleBlocks, slackArticleBase, snsArticleText, snsArticleBase, h1, h2]

theorem C9_link_placeholder_witness :
    (cArticle2.link.getD ("#") = "#")
    ∧ (slackArticleBlocks ("en") cArticle3 = slackArticleBase ("en") cArticle3
       ∧ snsArticleText cArticle3 = snsArticleBase cArticle3 ++ "\n")
    ∧ (slackArticleBlocks ("en") cArticle1
         = slackArticleBase ("en") cArticle1
           ++ [SlackBlock.sectionBlock
                 ("<" ++ cArticle1.link.getD ("#") ++ "|" ++ read_more_text ("en") ++ ">")]
       ∧ snsArticleText cArticle1
         = snsArticleBase cArticle1
           ++ ("More information: " ++ cArticle1.link.getD ("#") ++ "\n\n")) :=
  ⟨(C9_link_placeholder ("en") cArticle2).1 rfl,
   (C9_link_placeholder ("en") cArticle3).2.1 (Or.inl rfl),
   (C9_link_placeholder ("en") cArticle1).2.2 (by decide) (by decide)⟩

/-! String lemmas for the S3 key prefix. -/

lemma slash_free_prefix_eq :
    ∀ (xs ys zs : List Char), '/' ∉ xs → '/' ∉ ys →
      (xs ++ ['/'] <+: ys ++ '/' :: zs) → xs = ys := by
  intro xs
  induction xs with
  | nil =>
    intro ys zs hx hy h
    cases ys with
    | nil => rfl
    | cons y ys' =>
      simp only [List.nil_append, List.cons_append, List.cons_prefix_cons] at h
      cases h.1
      exact absurd (List.mem_cons_self _ _) hy
  | cons x xs' ih =>
    intro ys zs hx hy h
    cases ys with
    | nil =>
      simp only [List.cons_append, List.nil_append, List.cons_prefix_cons] at h
      cases h.1
      exact absurd (List.mem_cons_self _ _) hx
    | cons y ys' =>
      simp only [List.cons_append, List.cons_prefix_cons] at h
      obtain ⟨hxy, h'⟩ := h
      have hx' : '/' ∉ xs' := fun hm => hx (List.mem_cons_of_mem _ hm)
      have hy' : '/' ∉ ys' := fun hm => hy (List.mem_cons_of_mem _ hm)
      rw [hxy, ih ys' zs hx' hy' h']

lemma aws_source_of_key (src id : String) (hs : '/' ∉ src.data)
    (h : strStarts ("articles/AWS Announcements/") (s3Key src id) = true) :
    src = "AWS Announcements" := by
  unfold strStarts s3Key at h
  rw [List.isPrefixOf_iff_prefix] at h
  have hd : ("articles/" ++ src ++ "/" ++ id ++ ".json").data
      = "articles/".data ++ (src.data ++ '/' :: (id ++ ".json").data) := by
    simp [String.data_append, List.append_assoc]
  have hpre : ("articles/AWS Announcements/" : String).data
      = "articles/".data ++ ("AWS Announcements".data ++ ['/']) := by decide
  rw [hd, hpre, List.prefix_append_right_inj] at h
  have he := slash_free_prefix_eq ("AWS Announcements" : String).data src.data
    ((id ++ ".json" : String).data) (by decide) hs h
  exact String.ext he.symm

/-- C10: both backlog readers are hard-wired to the single source
`AWS Announcements`: every item the DynamoDB reader returns has that
source (and is unprocessed); every item the S3 reader returns has that
source (and is unprocessed), given the store invariant maintained by the
repository's write paths, namely that each object sits at the key
`articles/{source}/{id}.json` with a slash-free source name; and hence
every item in any run's notification payload has that source. -/
theorem C10_source_hardwired :
    (∀ (store : ItemStore) (a : Article), a ∈ get_unprocessed_articles_from_dynamodb store →
       a.source = some ("AWS Announcements") ∧ a.processed = false)
    ∧ (∀ (store : ItemStore) (a : Article), s3KeyInvariant store →
       a ∈ get_unprocessed_articles_from_s3 store →
       a.source = some ("AWS Announcements") ∧ a.processed = false)
    ∧ ∀ (cfg : Config) (store : ItemStore) (orc : Oracles) (a : Article),
        1 ≤ cfg.batchSize → s3KeyInvariant store →
        a ∈ (process_articles cfg store orc).1 → a.source = some ("AWS Announcements") := by
  have hdyn : ∀ (store : ItemStore) (a : Article),
      a ∈ get_unprocessed_articles_from_dynamodb store →
      a.source = some ("AWS Announcements") ∧ a.processed = false := by
    intro store a h
    unfold get_unprocessed_articles_from_dynamodb at h
    split at h
    · exact absurd h (List.not_mem_nil a)
    · have hp := (List.mem_filter.mp h).2
      simp [dynamodb_scan_filter] at hp
      exact ⟨hp.2, hp.1⟩
  have hs3 : ∀ (store : ItemStore) (a : Article), s3KeyInvariant store →
      a ∈ get_unprocessed_articles_from_s3 store →
      a.source = some ("AWS Announcements") ∧ a.processed = false := by
    intro store a hinv h
    unfold get_unprocessed_articles_from_s3 at h
    split at h
    · exact absurd h (List.not_mem_nil a)
    · obtain ⟨h1, h2⟩ := List.mem_filter.mp h
      obtain ⟨p, hp, hpa⟩ := List.mem_map.mp h1
      obtain ⟨hpo, hpk⟩ := List.mem_filter.mp hp
      obtain ⟨src, hsrc, hslash, hkey⟩ := hinv p hpo
      rw [hkey] at hpk
      have := aws_source_of_key src p.2.id hslash hpk
      subst this
      refine ⟨?_, ?_⟩
      · rw [← hpa]; exact hsrc
      · simpa using h2
  refine ⟨hdyn, hs3, ?_⟩
  intro cfg store orc a hb hinv hmem
  rw [process_articles_payload cfg store orc hb] at hmem
  rw [specPayload] at hmem
  obtain ⟨p, hp, hpa⟩ := List.mem_filterMap.mp hmem
  have hsnd : p.2 ∈ fetched_articles cfg store := List.snd_mem_of_mem_enum hp
  have hsource : p.2.source = some ("AWS Announcements") := by
    unfold fetched_articles at hsnd
    split at hsnd
    · exact (hs3 store p.2 hinv hsnd).1
    · exact (hdyn store p.2 hsnd).1
  unfold withSummaryFor at hpa
  split at hpa
  · have := Option.some.inj hpa
    rw [← this]
    exact hsource
  · exact absurd hpa (by simp)

theorem C10_source_hardwired_witness :
    (cArticle1.source = some ("AWS Announcements") ∧ cArticle1.processed = false)
    ∧ { cArticle1 with summary := some ("All about EC2 X1.") }.source
        = some ("AWS Announcements") :=
  ⟨C10_source_hardwired.2.1 cStoreS3 cArticle1
      (fun p hp => by
        have hp1 : p = (("articles/AWS Announcements/a1.json"), cArticle1) := by
          simpa [cStoreS3] using hp
        subst hp1
        exact ⟨"AWS Announcements", rfl, by decide, rfl⟩)
      (by decide),
   C10_source_hardwired.2.2 cCfgSlack cStore3 cOrcOk
      { cArticle1 with summary := some ("All about EC2 X1.") } (by decide)
      (fun p hp => absurd hp (List.not_mem_nil p)) (by decide)⟩
